import Mathlib

/-!
Verification of the declarative contract in src/definitions.ts of the
capacitor-google-pay plugin. The file is a pure type/interface surface:
two integer enums, four record shapes, and the GooglePayPlugin method
interface. We embed that surface as concrete Lean data (enums as
name-value association lists, records as ordered field lists carrying an
optionality flag and a type, methods as name/params/return signatures)
and prove the specified facts about it.
-/

namespace GooglePay

/-- Shallow embedding of the TypeScript types that appear in
src/definitions.ts: primitive types, string-literal types, binary
unions, arrays, Promise wrappers, references to named interfaces,
one-argument function types, and inline object types given by an
ordered list of (field name, optional flag, field type) triples. -/
inductive TSType where
  | str
  | boolean
  | voidTy
  | anyTy
  | lit (s : String)
  | union (a b : TSType)
  | arr (elem : TSType)
  | promise (result : TSType)
  | named (n : String)
  | fn (arg ret : TSType)
  | obj (fields : List (String × Bool × TSType))

/-- A method signature of the GooglePayPlugin interface: its name, its
ordered parameter list (parameter name and type), and its return type. -/
structure TSMethod where
  name : String
  params : List (String × TSType)
  ret : TSType

/-- Embedding of `export enum ErrorCodeReference` from
src/definitions.ts, in source order. -/
def ErrorCodeReference : List (String × Int) :=
  [("PUSH_PROVISION_ERROR", -1),
   ("PUSH_PROVISION_CANCEL", -2),
   ("MISSING_DATA_ERROR", -3),
   ("CREATE_WALLET_CANCEL", -4),
   ("IS_TOKENIZED_ERROR", -5),
   ("REMOVE_TOKEN_ERROR", -6),
   ("INVALID_TOKEN", -7),
   ("SELECT_TOKEN_ERROR", -8),
   ("SET_DEFAULT_PAYMENTS_ERROR", -9)]

/-- Embedding of `export enum TokenStatusReference` from
src/definitions.ts, in source order. -/
def TokenStatusReference : List (String × Int) :=
  [("TOKEN_STATE_UNTOKENIZED", 1),
   ("TOKEN_STATE_PENDING", 2),
   ("TOKEN_STATE_NEEDS_IDENTITY_VERIFICATION", 3),
   ("TOKEN_STATE_SUSPENDED", 4),
   ("TOKEN_STATE_ACTIVE", 5),
   ("TOKEN_STATE_FELICA_PENDING_PROVISIONING", 6),
   ("TOKEN_STATE_NOT_FOUND", -1)]

/-- Embedding of `export interface GooglePayAddress` from
src/definitions.ts: ordered (field name, optional, type) triples.
Only address2 is declared with a `?` marker in the source. -/
def GooglePayAddress : List (String × Bool × TSType) :=
  [("name", false, .str),
   ("address1", false, .str),
   ("address2", true, .str),
   ("locality", false, .str),
   ("administrativeArea", false, .str),
   ("countryCode", false, .str),
   ("postalCode", false, .str),
   ("phoneNumber", false, .str)]

/-- Embedding of `export interface GooglePayProvisionOptions` from
src/definitions.ts: ordered (field name, optional, type) triples. -/
def GooglePayProvisionOptions : List (String × Bool × TSType) :=
  [("opc", false, .str),
   ("tsp", false, .str),
   ("clientName", false, .str),
   ("lastDigits", false, .str),
   ("address", false, .named "GooglePayAddress")]

/-- Embedding of `export interface GooglePayIsTokenizedOptions` from
src/definitions.ts. -/
def GooglePayIsTokenizedOptions : List (String × Bool × TSType) :=
  [("tsp", false, .str),
   ("lastDigits", false, .str)]

/-- Embedding of `export interface GooglePayTokenOptions` from
src/definitions.ts. -/
def GooglePayTokenOptions : List (String × Bool × TSType) :=
  [("tsp", false, .str),
   ("tokenReferenceId", false, .str)]

/-- The union type written `PROD | SANDBOX | DEV` (three string
literal types) in the return of getEnvironment. -/
def envValueType : TSType :=
  .union (.union (.lit "PROD") (.lit "SANDBOX")) (.lit "DEV")

/-- Embedding of `export interface GooglePayPlugin` from
src/definitions.ts: every method in source order with its exact
parameter and return types. -/
def GooglePayPlugin : List TSMethod :=
  [⟨"addListener",
    [("eventName", .lit "registerDataChangedListener"),
     ("listenerFunc", .fn .anyTy .voidTy)],
    .promise (.named "PluginListenerHandle")⟩,
   ⟨"removeAllListeners", [], .voidTy⟩,
   ⟨"getEnvironment", [],
    .promise (.obj [("value", false, envValueType)])⟩,
   ⟨"getStableHardwareId", [],
    .promise (.obj [("hardwareId", false, .str)])⟩,
   ⟨"getActiveWalletID", [],
    .promise (.obj [("walletId", false, .str)])⟩,
   ⟨"createWallet", [],
    .promise (.obj [("isCreated", false, .boolean)])⟩,
   ⟨"getTokenStatus", [("options", .named "GooglePayTokenOptions")],
    .promise (.obj [("state", false, .named "TokenStatusReference"),
                    ("code", false, .str)])⟩,
   ⟨"listTokens", [],
    .promise (.obj [("tokens", false, .arr .str)])⟩,
   ⟨"isTokenized", [("options", .named "GooglePayIsTokenizedOptions")],
    .promise (.obj [("isTokenized", false, .boolean)])⟩,
   ⟨"pushProvision", [("options", .named "GooglePayProvisionOptions")],
    .promise (.obj [("tokenId", false, .str)])⟩,
   ⟨"requestSelectToken", [("options", .named "GooglePayTokenOptions")],
    .promise (.obj [("isSuccess", false, .boolean)])⟩,
   ⟨"requestDeleteToken", [("options", .named "GooglePayTokenOptions")],
    .promise (.obj [("isSuccess", false, .boolean)])⟩,
   ⟨"isGPayDefaultNFCApp", [],
    .promise (.obj [("isDefault", false, .boolean),
                    ("isNFCOn", false, .boolean)])⟩,
   ⟨"setGPayAsDefaultNFCApp", [],
    .promise (.obj [("isDefault", false, .boolean)])⟩,
   ⟨"registerDataChangedListener", [], .promise .anyTy⟩]

/-- Field names of the object a Promise-returning method resolves with;
none when the method does not resolve with an inline object literal
(for example registerDataChangedListener, which resolves with any). -/
def resultFields : TSType → Option (List String)
  | .promise (.obj fs) => some (fs.map Prod.fst)
  | _ => none

/-- Whether a return type is Promise-wrapped (a deferred result). -/
def returnsPromise : TSType → Bool
  | .promise _ => true
  | _ => false

/-- The set of strings a string-valued TypeScript type admits: a
string-literal type admits exactly its literal, a union admits what
either side admits, the plain string type admits everything. -/
def allowsString : TSType → String → Bool
  | .str, _ => true
  | .lit l, s => s == l
  | .union a b, s => allowsString a s || allowsString b s
  | _, _ => false

/-- Whether a method takes a GooglePayTokenOptions parameter. -/
def takesTokenOptions (m : TSMethod) : Bool :=
  m.params.any fun p =>
    match p.2 with
    | .named n => n == "GooglePayTokenOptions"
    | _ => false

/-- A caller-supplied GooglePayAddress value in which every field may
have been omitted (none) by the caller; mirrors the field list of the
GooglePayAddress interface. -/
structure AddressValue where
  name : Option String
  address1 : Option String
  address2 : Option String
  locality : Option String
  administrativeArea : Option String
  countryCode : Option String
  postalCode : Option String
  phoneNumber : Option String

/-- A caller-supplied GooglePayProvisionOptions value in which every
field may have been omitted (none) by the caller; mirrors the field
list of the GooglePayProvisionOptions interface. -/
structure ProvisionValue where
  opc : Option String
  tsp : Option String
  clientName : Option String
  lastDigits : Option String
  address : Option AddressValue

/-- A field is populated when it is present and non-empty. -/
def populated : Option String → Bool
  | some s => !(s == "")
  | none => false

/-- All required fields of an address value are populated; address2 is
the one optional field and is not checked. -/
def addressComplete (a : AddressValue) : Bool :=
  populated a.name && populated a.address1 && populated a.locality &&
    populated a.administrativeArea && populated a.countryCode &&
    populated a.postalCode && populated a.phoneNumber

/-- All required fields of a provision request are populated, including
every required subfield of its address. -/
def provisionComplete (r : ProvisionValue) : Bool :=
  populated r.opc && populated r.tsp && populated r.clientName &&
    populated r.lastDigits &&
    (match r.address with
     | some a => addressComplete a
     | none => false)

/-- Some required field of the provision request was omitted outright:
one of opc, tsp, clientName, lastDigits or address is absent, or the
address is present but one of its required subfields is absent. -/
def provisionOmitsRequired (r : ProvisionValue) : Bool :=
  r.opc.isNone || r.tsp.isNone || r.clientName.isNone ||
    r.lastDigits.isNone ||
    (match r.address with
     | some a =>
         a.name.isNone || a.address1.isNone || a.locality.isNone ||
           a.administrativeArea.isNone || a.countryCode.isNone ||
           a.postalCode.isNone || a.phoneNumber.isNone
     | none => true)

/-- Modelled from the spec: the request-shape validation that guards
pushProvision is not part of src/definitions.ts (only the request type
and the MISSING_DATA_ERROR code are declared there); per the spec, a
request with all required fields populated and all required address
subfields non-empty is accepted, and an incomplete request is rejected
before dispatch with MISSING_DATA_ERROR (-3). -/
def validatePushProvision (r : ProvisionValue) : Except Int Unit :=
  if provisionComplete r then Except.ok () else Except.error (-3)

/-- The thirteen request/response operations: every plugin method other
than the addListener subscription and the removeAllListeners teardown. -/
def requestResponseOps : List TSMethod :=
  GooglePayPlugin.filter fun m =>
    !(m.name == "addListener") && !(m.name == "removeAllListeners")

/-- A concrete fully-populated address value used as a test fixture. -/
def sampleAddress : AddressValue :=
  ⟨some "Jane Doe", some "1 Main Street", some "Unit 2",
   some "Springfield", some "IL", some "US", some "62704",
   some "15550123"⟩

/-- A concrete fully-populated provision request fixture. -/
def sampleProvision : ProvisionValue :=
  ⟨some "opcBlobBase64", some "TSP_VISA", some "Acme Wallet",
   some "1234", some sampleAddress⟩

/-- The same fixture with the required opc field omitted. -/
def sampleProvisionMissingOpc : ProvisionValue :=
  ⟨none, some "TSP_VISA", some "Acme Wallet", some "1234",
   some sampleAddress⟩

theorem populated_isSome (o : Option String) (h : populated o = true) :
    o.isNone = false := by
  cases o <;> simp [populated] at h ⊢

theorem complete_not_omits (r : ProvisionValue)
    (h : provisionComplete r = true) :
    provisionOmitsRequired r = false := by
  unfold provisionComplete at h
  unfold provisionOmitsRequired
  obtain ⟨opc, tsp, clientName, lastDigits, address⟩ := r
  cases address with
  | none => simp at h
  | some a =>
    simp only [Bool.and_eq_true] at h
    obtain ⟨⟨⟨⟨h1, h2⟩, h3⟩, h4⟩, h5⟩ := h
    unfold addressComplete at h5
    simp only [Bool.and_eq_true] at h5
    obtain ⟨⟨⟨⟨⟨⟨a1, a2⟩, a3⟩, a4⟩, a5⟩, a6⟩, a7⟩ := h5
    simp [populated_isSome _ h1, populated_isSome _ h2,
          populated_isSome _ h3, populated_isSome _ h4,
          populated_isSome _ a1, populated_isSome _ a2,
          populated_isSome _ a3, populated_isSome _ a4,
          populated_isSome _ a5, populated_isSome _ a6,
          populated_isSome _ a7]

end GooglePay

open GooglePay

/-- Claim C1: the ErrorCodeReference enum has exactly the nine members
PUSH_PROVISION_ERROR = -1 through SET_DEFAULT_PAYMENTS_ERROR = -9 in
that order, the nine values are pairwise distinct, and every value is a
negative integer in the range -9 to -1. -/
theorem errorCodeReference_nine_unique_negative :
    ErrorCodeReference =
      [("PUSH_PROVISION_ERROR", -1), ("PUSH_PROVISION_CANCEL", -2),
       ("MISSING_DATA_ERROR", -3), ("CREATE_WALLET_CANCEL", -4),
       ("IS_TOKENIZED_ERROR", -5), ("REMOVE_TOKEN_ERROR", -6),
       ("INVALID_TOKEN", -7), ("SELECT_TOKEN_ERROR", -8),
       ("SET_DEFAULT_PAYMENTS_ERROR", -9)] ∧
    (ErrorCodeReference.map Prod.snd).Nodup ∧
    ∀ v ∈ ErrorCodeReference.map Prod.snd, -9 ≤ v ∧ v ≤ -1 :=
  ⟨rfl, by decide, by decide⟩

/-- Witness for claim C1: the value -9 is among the enum values and
lies in the stated range. -/
theorem errorCodeReference_nine_unique_negative_witness :
    (-9 : Int) ∈ ErrorCodeReference.map Prod.snd ∧
      (-9 ≤ (-9 : Int) ∧ (-9 : Int) ≤ -1) :=
  ⟨by decide,
   errorCodeReference_nine_unique_negative.2.2 (-9) (by decide)⟩

/-- Claim C2: the TokenStatusReference enum carries exactly the named
mapping TOKEN_STATE_UNTOKENIZED = 1 through
TOKEN_STATE_FELICA_PENDING_PROVISIONING = 6 plus
TOKEN_STATE_NOT_FOUND = -1, with no duplicate values, and its value set
is exactly the set -1, 1, 2, 3, 4, 5, 6. -/
theorem tokenStatusReference_value_set :
    TokenStatusReference =
      [("TOKEN_STATE_UNTOKENIZED", 1), ("TOKEN_STATE_PENDING", 2),
       ("TOKEN_STATE_NEEDS_IDENTITY_VERIFICATION", 3),
       ("TOKEN_STATE_SUSPENDED", 4), ("TOKEN_STATE_ACTIVE", 5),
       ("TOKEN_STATE_FELICA_PENDING_PROVISIONING", 6),
       ("TOKEN_STATE_NOT_FOUND", -1)] ∧
    (TokenStatusReference.map Prod.snd).Nodup ∧
    List.Perm (TokenStatusReference.map Prod.snd)
      [-1, 1, 2, 3, 4, 5, 6] :=
  ⟨rfl, by decide, by decide⟩

/-- Claim C3: the plugin interface declares exactly one addListener
registration, one removeAllListeners teardown, and thirteen
request/response operations, each resolving with exactly the listed
result field names; registerDataChangedListener resolves with an
untyped (opaque) response. -/
theorem plugin_method_surface :
    (GooglePayPlugin.filter (fun m => m.name == "addListener")).length
        = 1 ∧
    (GooglePayPlugin.filter
        (fun m => m.name == "removeAllListeners")).length = 1 ∧
    requestResponseOps.map (fun m => (m.name, resultFields m.ret)) =
      [("getEnvironment", some ["value"]),
       ("getStableHardwareId", some ["hardwareId"]),
       ("getActiveWalletID", some ["walletId"]),
       ("createWallet", some ["isCreated"]),
       ("getTokenStatus", some ["state", "code"]),
       ("listTokens", some ["tokens"]),
       ("isTokenized", some ["isTokenized"]),
       ("pushProvision", some ["tokenId"]),
       ("requestSelectToken", some ["isSuccess"]),
       ("requestDeleteToken", some ["isSuccess"]),
       ("isGPayDefaultNFCApp", some ["isDefault", "isNFCOn"]),
       ("setGPayAsDefaultNFCApp", some ["isDefault"]),
       ("registerDataChangedListener", none)] :=
  ⟨rfl, rfl, rfl⟩

/-- Claim C4: GooglePayProvisionOptions has exactly the five fields opc,
tsp, clientName, lastDigits and address in that order, every one
required, with address typed as a GooglePayAddress and the rest as
strings. -/
theorem provisionOptions_fields_required :
    GooglePayProvisionOptions.map (fun f => (f.1, f.2.1)) =
      [("opc", false), ("tsp", false), ("clientName", false),
       ("lastDigits", false), ("address", false)] ∧
    GooglePayProvisionOptions.map (fun f => f.2.2) =
      [.str, .str, .str, .str, .named "GooglePayAddress"] ∧
    GooglePayProvisionOptions.filter (fun f => f.2.1) = [] :=
  ⟨rfl, rfl, rfl⟩

/-- Claim C5: a provision request with every required field (including
all required address subfields) populated passes the request-shape
validation, and a request omitting any required field is rejected with
MISSING_DATA_ERROR, whose enum value is -3. -/
theorem pushProvision_shape_validation (r : ProvisionValue) :
    (provisionComplete r = true →
      validatePushProvision r = Except.ok ()) ∧
    (provisionOmitsRequired r = true →
      validatePushProvision r = Except.error (-3)) ∧
    ErrorCodeReference.lookup "MISSING_DATA_ERROR" = some (-3) := by
  refine ⟨fun h => by simp [validatePushProvision, h], fun h => ?_, by decide⟩
  cases hc : provisionComplete r with
  | false => simp [validatePushProvision, hc]
  | true => rw [complete_not_omits r hc] at h; exact absurd h (by simp)

/-- Witness for claim C5: the fully-populated fixture is accepted and
the fixture missing opc is rejected with -3. -/
theorem pushProvision_shape_validation_witness :
    validatePushProvision sampleProvision = Except.ok () ∧
    validatePushProvision sampleProvisionMissingOpc =
      Except.error (-3) :=
  ⟨(pushProvision_shape_validation sampleProvision).1 (by decide),
   (pushProvision_shape_validation sampleProvisionMissingOpc).2.1
     (by decide)⟩

/-- Counterexample to claim C6 as stated: it is not the case that every
plugin method other than addListener returns a Promise-typed result,
because removeAllListeners (method index 1) is declared to return void. -/
theorem removeAllListeners_not_deferred :
    ¬ ∀ i : Fin GooglePayPlugin.length,
        (GooglePayPlugin.get i).name ≠ "addListener" →
          returnsPromise (GooglePayPlugin.get i).ret = true := by
  intro h
  exact absurd (h ⟨1, by decide⟩ (by decide)) (by decide)

/-- Claim C6 as amended: every operation of the plugin interface
returns a deferred (Promise-typed) result except removeAllListeners,
which is declared to return void synchronously. -/
theorem plugin_methods_deferred_except_removeAllListeners :
    ∀ i : Fin GooglePayPlugin.length,
      returnsPromise (GooglePayPlugin.get i).ret = false ↔
        (GooglePayPlugin.get i).name = "removeAllListeners" := by
  decide

/-- Claim C7: GooglePayAddress has exactly the seven required fields
name, address1, locality, administrativeArea, countryCode, postalCode,
phoneNumber and exactly one optional field, address2. -/
theorem address_fields :
    (GooglePayAddress.filter (fun f => !f.2.1)).map Prod.fst =
      ["name", "address1", "locality", "administrativeArea",
       "countryCode", "postalCode", "phoneNumber"] ∧
    (GooglePayAddress.filter (fun f => f.2.1)).map Prod.fst =
      ["address2"] ∧
    GooglePayAddress.length = 8 :=
  ⟨rfl, rfl, rfl⟩

/-- Claim C8: GooglePayIsTokenizedOptions has exactly the required
fields tsp and lastDigits, GooglePayTokenOptions has exactly the
required fields tsp and tokenReferenceId, and the methods taking a
GooglePayTokenOptions input are exactly getTokenStatus,
requestSelectToken and requestDeleteToken. -/
theorem token_query_records :
    GooglePayIsTokenizedOptions.map (fun f => (f.1, f.2.1)) =
      [("tsp", false), ("lastDigits", false)] ∧
    GooglePayTokenOptions.map (fun f => (f.1, f.2.1)) =
      [("tsp", false), ("tokenReferenceId", false)] ∧
    (GooglePayPlugin.filter takesTokenOptions).map TSMethod.name =
      ["getTokenStatus", "requestSelectToken", "requestDeleteToken"] :=
  ⟨rfl, rfl, rfl⟩

/-- Claim C9: getEnvironment takes no parameters and resolves with a
record whose value field has the three-literal union type; a string is
admitted by that type exactly when it is PROD, SANDBOX or DEV. -/
theorem getEnvironment_contract :
    (GooglePayPlugin.filter (fun m => m.name == "getEnvironment")).map
        (fun m => (m.params, m.ret)) =
      [([], .promise (.obj [("value", false, envValueType)]))] ∧
    ∀ s : String, allowsString envValueType s = true ↔
      s = "PROD" ∨ s = "SANDBOX" ∨ s = "DEV" := by
  refine ⟨rfl, fun s => ?_⟩
  simp [envValueType, allowsString, or_assoc]

/-- Claim C10: the single addListener method types its eventName
parameter as the one literal string registerDataChangedListener, so no
other event name is admitted, and it resolves with a
PluginListenerHandle. -/
theorem addListener_single_event :
    (GooglePayPlugin.filter (fun m => m.name == "addListener")).map
        (fun m => (m.params.map Prod.snd, m.ret)) =
      [([.lit "registerDataChangedListener", .fn .anyTy .voidTy],
        .promise (.named "PluginListenerHandle"))] ∧
    ∀ s : String,
      allowsString (.lit "registerDataChangedListener") s = true ↔
        s = "registerDataChangedListener" := by
  refine ⟨rfl, fun s => ?_⟩
  simp [allowsString]
